import Mathlib

/-!
Verification of the stock_service inventory application.

This file gives a shallow embedding, in Lean 4, of the data model and the
request handlers of the stock_service Django application
(stock_service/views.py, stock_service/forms.py, stock_service/backends.py,
stock_service/models.py), together with theorems settling a list of claims
about the application.

Modelling conventions.

Quantities (PositiveIntegerField) are Nat; calendar dates are day numbers
of type Int; a database transaction is modelled by returning the original
state whenever the handler rolls back or fails validation before writing.
Each stock-mutating handler touches a single StockObject, the drawer
placements of that object, and the append-only movement and usage ledgers,
so the state carries exactly those components.  The float arithmetic of the
refill-prediction view (daily_usage = total / 90.0;
days_until_empty = current_quantity / daily_usage) is embedded exactly over
the rationals, realised by integer cross-multiplication:
days_until_empty <= t iff 90 * current_quantity <= t * total, and
int(days_until_empty) = (90 * current_quantity) / total by Nat division.
Password-hash verification (check_password) is modelled as equality with
the stored secret.  Stable sorting (Python list.sort) is modelled by a
structurally recursive insertion sort with the matching tie-breaking
behaviour.
-/

/-! ## Generic helpers -/

/-- Insert x into a list sorted by le, in front of the first element y with
le x y.  This is the insertion step of a stable insertion sort. -/
def insertSorted (le : α → α → Bool) (x : α) : List α → List α
  | [] => [x]
  | y :: ys => if le x y then x :: y :: ys else y :: insertSorted le x ys

/-- Stable insertion sort: equal elements keep their original relative
order, matching the stability guarantee of Python list.sort. -/
def insertionSortB (le : α → α → Bool) : List α → List α
  | [] => []
  | x :: xs => insertSorted le x (insertionSortB le xs)

/-- Case folding used by the iexact comparisons: the kernel-computable
equivalent of str.lower, mapping Char.toLower over the character list. -/
def lowerStr (s : String) : String := String.mk (s.data.map Char.toLower)

/-! ## Data model (stock_service/models.py) -/

/-- StockObject: the fields of the model that the stock handlers read or
write (models.py, class StockObject). -/
structure StockObject where
  name : String
  current_quantity : Nat
  minimum_quantity : Nat
  is_active : Bool
deriving DecidableEq, Repr

/-- StockObjectDrawerPlacement for one stock object: the drawer key and the
quantity held there (models.py, class StockObjectDrawerPlacement). -/
structure StockObjectDrawerPlacement where
  drawer : Nat
  quantity : Nat
deriving DecidableEq, Repr

/-- StockMovement ledger row (models.py, class StockMovement). -/
structure StockMovement where
  movement_type : String
  quantity : Nat
  drawer_involved : Option Nat
deriving DecidableEq, Repr

/-- StockUsage ledger row for one stock object (models.py, class
StockUsage). -/
structure StockUsage where
  quantity_used : Nat
  logged_at : Int
deriving DecidableEq, Repr

/-- Society fields read by the stock handlers (models.py, class Society). -/
structure Society where
  subscription_level : String
  can_manage_drawers : Bool
deriving DecidableEq, Repr

/-- Database state touched by a stock mutation: the society, one stock
object, the drawer placements of that object, and the two ledgers. -/
structure DB where
  society : Society
  stock_object : StockObject
  placements : List StockObjectDrawerPlacement
  movements : List StockMovement
  usages : List StockUsage
deriving DecidableEq, Repr

/-! ## Stock mutation handlers (stock_service/views.py) -/

/-- Error outcomes of stock_out_stock_service. -/
inductive StockErr where
  | insufficientStock
  | insufficientDrawer
deriving DecidableEq, Repr

/-- Django get_or_create on StockObjectDrawerPlacement keyed by drawer,
with defaults quantity = 0: returns the row (existing or fresh) and the
placement table afterwards. -/
def get_or_create_placement (ps : List StockObjectDrawerPlacement) (d : Nat) :
    StockObjectDrawerPlacement × List StockObjectDrawerPlacement :=
  match ps.find? (fun p => p.drawer == d) with
  | some p => (p, ps)
  | none => ({ drawer := d, quantity := 0 }, ps ++ [{ drawer := d, quantity := 0 }])

/-- Saving a placement row: set the quantity of the row keyed by d. -/
def save_placement (ps : List StockObjectDrawerPlacement) (d : Nat) (q : Nat) :
    List StockObjectDrawerPlacement :=
  ps.map (fun p => if p.drawer == d then { p with quantity := q } else p)

/-- Quantity currently recorded for drawer d (0 when no row exists, which
is also the defaults value get_or_create would insert). -/
def placement_quantity (ps : List StockObjectDrawerPlacement) (d : Nat) : Nat :=
  match ps.find? (fun p => p.drawer == d) with
  | some p => p.quantity
  | none => 0

/-- stock_out_stock_service (views.py): check current_quantity >= quantity
up front (else fail with insufficient stock and no writes); inside the
transaction decrement current_quantity, then, when the society can manage
drawers and a drawer is involved, get_or_create the placement row and
decrement it, rolling the whole transaction back when the row holds fewer
than the requested quantity; finally append a Movement(out).  The pair
returned is the committed database state and the error, the original state
standing for a rollback. -/
def stock_out_stock_service (db : DB) (quantity : Nat) (drawer_involved : Option Nat) :
    DB × Option StockErr :=
  if db.stock_object.current_quantity ≥ quantity then
    let db1 : DB := { db with stock_object :=
      { db.stock_object with current_quantity := db.stock_object.current_quantity - quantity } }
    match drawer_involved with
    | some d =>
      if db.society.can_manage_drawers then
        let pc := get_or_create_placement db1.placements d
        if pc.1.quantity ≥ quantity then
          let db2 : DB := { db1 with placements := save_placement pc.2 d (pc.1.quantity - quantity) }
          ({ db2 with movements := db2.movements ++
              [{ movement_type := "out", quantity := quantity, drawer_involved := drawer_involved }] },
           none)
        else
          (db, some StockErr.insufficientDrawer)
      else
        ({ db1 with movements := db1.movements ++
            [{ movement_type := "out", quantity := quantity, drawer_involved := drawer_involved }] },
         none)
    | none =>
      ({ db1 with movements := db1.movements ++
          [{ movement_type := "out", quantity := quantity, drawer_involved := drawer_involved }] },
       none)
  else
    (db, some StockErr.insufficientStock)

/-- stock_in_stock_service (views.py): increment current_quantity, amend
the placement row when the society manages drawers and a drawer is
involved, append a Movement(in).  No insufficiency check. -/
def stock_in_stock_service (db : DB) (quantity : Nat) (drawer_involved : Option Nat) : DB :=
  let db1 : DB := { db with stock_object :=
    { db.stock_object with current_quantity := db.stock_object.current_quantity + quantity } }
  let db2 : DB :=
    match drawer_involved with
    | some d =>
      if db.society.can_manage_drawers then
        let pc := get_or_create_placement db1.placements d
        { db1 with placements := save_placement pc.2 d (pc.1.quantity + quantity) }
      else db1
    | none => db1
  { db2 with movements := db2.movements ++
      [{ movement_type := "in", quantity := quantity, drawer_involved := drawer_involved }] }

/-- add_stock_usage_stock_service (views.py): when
current_quantity >= quantity_used, decrement the stock object and append a
StockUsage row (no StockMovement row is written); otherwise fail with no
writes.  The Bool is True exactly on success. -/
def add_stock_usage_stock_service (db : DB) (quantity_used : Nat) (logged_at : Int) :
    DB × Bool :=
  if db.stock_object.current_quantity ≥ quantity_used then
    ({ db with
        stock_object :=
          { db.stock_object with current_quantity := db.stock_object.current_quantity - quantity_used },
        usages := db.usages ++ [{ quantity_used := quantity_used, logged_at := logged_at }] },
     true)
  else
    (db, false)

/-! ## Refill completion (stock_service/views.py, complete_refill_stock_service) -/

/-- RefillSchedule fields (models.py, class RefillSchedule). -/
structure RefillSchedule where
  scheduled_date : Int
  quantity_to_refill : Nat
  is_completed : Bool
  completed_date : Option Int
deriving DecidableEq, Repr

/-- State touched by refill completion: the schedule, its stock object and
the movement ledger. -/
structure RefillState where
  stock_object : StockObject
  schedule : RefillSchedule
  movements : List StockMovement
deriving DecidableEq, Repr

/-- Flash message outcome of complete_refill_stock_service. -/
inductive RefillMsg where
  | success
  | alreadyCompleted
  | invalidRequest
deriving DecidableEq, Repr

/-- complete_refill_stock_service (views.py): on a POST for a pending
schedule, inside one transaction set is_completed and completed_date,
increment current_quantity by quantity_to_refill and append a
Movement(in); when the schedule is already completed, warn and change
nothing; otherwise reject the request. -/
def complete_refill_stock_service (st : RefillState) (today : Int) (isPost : Bool) :
    RefillState × RefillMsg :=
  if isPost && !st.schedule.is_completed then
    ({ stock_object :=
        { st.stock_object with current_quantity :=
            st.stock_object.current_quantity + st.schedule.quantity_to_refill },
       schedule := { st.schedule with is_completed := true, completed_date := some today },
       movements := st.movements ++
        [{ movement_type := "in", quantity := st.schedule.quantity_to_refill,
           drawer_involved := none }] },
     RefillMsg.success)
  else if st.schedule.is_completed then
    (st, RefillMsg.alreadyCompleted)
  else
    (st, RefillMsg.invalidRequest)

/-! ## Refill prediction (stock_service/views.py, refill_prediction_stock_service) -/

/-- Alert messages the prediction view can attach to an item.  The
constructor lowStockStopped corresponds to the source branch for
daily_usage = 0 with positive 90-day usage, which is unreachable: a
positive integer total gives daily_usage = total / 90.0 >= 1/90 > 0. -/
inductive Alert where
  | zeroStock
  | urgent
  | considerRestocking
  | lowStockStopped
  | lowStockNoUsage
deriving DecidableEq, Repr

/-- One row of the predictions_list dictionary built by the view, with the
fields the sort key and the claims read.  predicted_refill_date is some
date when the source stores a datetime.date, none when it stores one of
the textual labels (the sort key maps those to date.max). -/
structure PredEntry where
  name : String
  current_quantity : Nat
  minimum_quantity : Nat
  needs_refill : Bool
  alert_message : Option Alert
  predicted_refill_date : Option Int
deriving DecidableEq, Repr

/-- StockUsage row keyed by the stock object name (names are unique per
society), as queried by the prediction view. -/
structure UsageRow where
  stock_object : String
  quantity_used : Nat
  logged_at : Int
deriving DecidableEq, Repr

/-- Sum of quantity_used over the usages of the named object logged in the
last 90 days (views.py: filter logged_at >= today - 90, aggregate Sum). -/
def total_used_in_90_days (usages : List UsageRow) (name : String) (today : Int) : Nat :=
  ((usages.filter (fun u => u.stock_object == name && today - 90 ≤ u.logged_at)).map
    (fun u => u.quantity_used)).sum

/-- Per-item body of the prediction loop (views.py).  With total > 0 the
source computes daily_usage = total / 90.0 > 0 and, for
current_quantity > 0, days_until_empty = current_quantity / daily_usage,
whose exact value is 90 * current_quantity / total; the comparisons and the
int() truncation are realised by cross-multiplication and Nat division.
The alert ladder is: current_quantity <= 0 gives the zero-stock alert,
days_until_empty <= 7 the urgent alert, days_until_empty <= 14 the
consider-restocking alert, else no alert.  With total = 0 the item gets the
low-stock-no-usage alert exactly when current_quantity <= minimum_quantity.
The needs_refill flag is current_quantity <= minimum_quantity in every
branch. -/
def mkPrediction (today : Int) (so : StockObject) (total : Nat) : PredEntry :=
  if 0 < total then
    if so.current_quantity = 0 then
      { name := so.name, current_quantity := so.current_quantity,
        minimum_quantity := so.minimum_quantity,
        needs_refill := decide (so.current_quantity ≤ so.minimum_quantity),
        alert_message := some Alert.zeroStock, predicted_refill_date := none }
    else
      let pred : Int := today + Int.ofNat (90 * so.current_quantity / total)
      if 90 * so.current_quantity ≤ 7 * total then
        { name := so.name, current_quantity := so.current_quantity,
          minimum_quantity := so.minimum_quantity,
          needs_refill := decide (so.current_quantity ≤ so.minimum_quantity),
          alert_message := some Alert.urgent, predicted_refill_date := some pred }
      else if 90 * so.current_quantity ≤ 14 * total then
        { name := so.name, current_quantity := so.current_quantity,
          minimum_quantity := so.minimum_quantity,
          needs_refill := decide (so.current_quantity ≤ so.minimum_quantity),
          alert_message := some Alert.considerRestocking, predicted_refill_date := some pred }
      else
        { name := so.name, current_quantity := so.current_quantity,
          minimum_quantity := so.minimum_quantity,
          needs_refill := decide (so.current_quantity ≤ so.minimum_quantity),
          alert_message := none, predicted_refill_date := some pred }
  else
    if so.current_quantity ≤ so.minimum_quantity then
      { name := so.name, current_quantity := so.current_quantity,
        minimum_quantity := so.minimum_quantity, needs_refill := true,
        alert_message := some Alert.lowStockNoUsage, predicted_refill_date := none }
    else
      { name := so.name, current_quantity := so.current_quantity,
        minimum_quantity := so.minimum_quantity, needs_refill := false,
        alert_message := none, predicted_refill_date := none }

/-- Source test: the alert text contains the urgent or the zero-stock
marker string. -/
def alert_is_critical : Option Alert → Bool
  | some Alert.urgent => true
  | some Alert.zeroStock => true
  | _ => false

/-- Ordering on Bool with false < true, as in Python tuple comparison. -/
def cmpBool : Bool → Bool → Ordering
  | false, false => Ordering.eq
  | false, true => Ordering.lt
  | true, false => Ordering.gt
  | true, true => Ordering.eq

/-- Ordering on the date component of the sort key, where none stands for
date.max (the value the source substitutes for non-date entries). -/
def cmpDateKey : Option Int → Option Int → Ordering
  | none, none => Ordering.eq
  | none, some _ => Ordering.gt
  | some _, none => Ordering.lt
  | some a, some b => compare a b

/-- Lexicographic comparison of the five-component sort key the source
builds: (critical alert, any alert, needs_refill, date-or-date.max,
name). -/
def cmpPredKey (a b : PredEntry) : Ordering :=
  (cmpBool (alert_is_critical a.alert_message) (alert_is_critical b.alert_message)).then
  ((cmpBool a.alert_message.isSome b.alert_message.isSome).then
  ((cmpBool a.needs_refill b.needs_refill).then
  ((cmpDateKey a.predicted_refill_date b.predicted_refill_date).then
  (compare a.name b.name))))

/-- predictions_list.sort(key, reverse=True): a stable sort placing larger
keys first. -/
def predictions_sort (l : List PredEntry) : List PredEntry :=
  insertionSortB (fun a b => cmpPredKey a b != Ordering.lt) l

/-- refill_prediction_stock_service (views.py): iterate the active stock
objects of the society ordered by name, build a prediction row for each
from its 90-day usage total, and sort the rows with the reverse=True key
sort. -/
def refill_prediction_stock_service (today : Int) (items : List StockObject)
    (usages : List UsageRow) : List PredEntry :=
  let active := insertionSortB (fun a b => compare a.name b.name != Ordering.gt)
    (items.filter (fun so => so.is_active))
  predictions_sort (active.map (fun so =>
    mkPrediction today so (total_used_in_90_days usages so.name today)))

/-! ## User administration forms (stock_service/forms.py) -/

/-- User row of one society: primary key, username and the two flags the
forms read and write (models.py, class User). -/
structure UserRec where
  pk : Nat
  username : String
  is_society_admin : Bool
  is_active : Bool
deriving DecidableEq, Repr

/-- A society together with its user rows. -/
structure SocietyUsers where
  subscription_level : String
  users : List UserRec
deriving DecidableEq, Repr

/-- SUBSCRIPTION_LIMITS max_admins (models.py); none models float inf for
the premium tier. -/
def max_admins : String → Option Nat
  | "free" => some 1
  | "basic" => some 2
  | _ => none

/-- SUBSCRIPTION_LIMITS max_users (models.py); none models float inf. -/
def max_users : String → Option Nat
  | "free" => some 2
  | "basic" => some 10
  | _ => none

/-- count >= limit, where comparison with the infinite limit is false. -/
def geLimit (c : Nat) : Option Nat → Bool
  | some m => decide (m ≤ c)
  | none => false

/-- count > limit, where comparison with the infinite limit is false. -/
def gtLimit (c : Nat) : Option Nat → Bool
  | some m => decide (m < c)
  | none => false

/-- Number of users of the society flagged is_society_admin. -/
def admin_count (users : List UserRec) : Nat :=
  users.countP (fun u => u.is_society_admin)

/-- Number of users of the society. -/
def user_count (users : List UserRec) : Nat :=
  users.length

/-- Number of admins excluding the row with primary key pk
(filter(is_society_admin=True).exclude(pk=pk).count()). -/
def admin_count_excluding (users : List UserRec) (pk : Nat) : Nat :=
  users.countP (fun u => u.is_society_admin && u.pk != pk)

/-- Number of active users excluding the row with primary key pk. -/
def active_count_excluding (users : List UserRec) (pk : Nat) : Nat :=
  users.countP (fun u => u.is_active && u.pk != pk)

/-- UserCreateForm.clean (forms.py): reject a duplicate username
(case-insensitive, within the society), reject an admin flag when the
admin count already reached max_admins, reject any creation when the total
user count already reached max_users.  True means no error was added. -/
def UserCreateForm_clean (s : SocietyUsers) (username : String) (is_society_admin : Bool) :
    Bool :=
  let username_taken := s.users.any (fun u => lowerStr u.username == lowerStr username)
  let e_admin := is_society_admin &&
    geLimit (admin_count s.users) (max_admins s.subscription_level)
  let e_total := geLimit (user_count s.users) (max_users s.subscription_level)
  !(username_taken || e_admin || e_total)

/-- Fresh primary key for a created row, modelling the autoincrementing
database key: strictly larger than every existing key. -/
def fresh_pk (users : List UserRec) : Nat :=
  (users.map (fun u => u.pk)).foldl max 0 + 1

/-- UserCreateView with UserCreateForm: append the new user when the form
validates, otherwise change nothing. -/
def user_create (s : SocietyUsers) (username : String) (is_society_admin : Bool)
    (is_active : Bool) : SocietyUsers :=
  if UserCreateForm_clean s username is_society_admin then
    { s with users := s.users ++
        [{ pk := fresh_pk s.users, username := username,
           is_society_admin := is_society_admin, is_active := is_active }] }
  else s

/-- UserUpdateForm.clean (forms.py) for target row inst: reject a
promotion when it would exceed max_admins, reject a reactivation when it
would exceed max_users, and reject revoking the admin flag of the last
admin of a free-tier society.  True means no error was added. -/
def UserUpdateForm_clean (s : SocietyUsers) (inst : UserRec) (new_admin new_active : Bool) :
    Bool :=
  let admins_excl := admin_count_excluding s.users inst.pk
  let e_admin := !inst.is_society_admin && new_admin &&
    gtLimit (admins_excl + 1) (max_admins s.subscription_level)
  let e_active := !inst.is_active && new_active &&
    gtLimit (active_count_excluding s.users inst.pk + 1) (max_users s.subscription_level)
  let e_last_admin := inst.is_society_admin && !new_admin &&
    (s.subscription_level == "free") && (admins_excl == 0)
  !(e_admin || e_active || e_last_admin)

/-- Field update applied by UserUpdateView when it saves the form: set the
two flags of the row keyed by pk. -/
def upd_user (pk : Nat) (na aa : Bool) (u : UserRec) : UserRec :=
  if u.pk == pk then { u with is_society_admin := na, is_active := aa } else u

/-- UserUpdateView with UserUpdateForm: look the target up by primary key
(404 when absent, modelled as no change), validate, and on success save
the two flags. -/
def user_update (s : SocietyUsers) (pk : Nat) (new_admin new_active : Bool) : SocietyUsers :=
  match s.users.find? (fun u => u.pk == pk) with
  | none => s
  | some inst =>
    if UserUpdateForm_clean s inst new_admin new_active then
      { s with users := s.users.map (upd_user pk new_admin new_active) }
    else s

/-- One user-administration request. -/
inductive AdminOp where
  | create (username : String) (is_society_admin : Bool) (is_active : Bool)
  | update (pk : Nat) (new_admin : Bool) (new_active : Bool)

/-- Apply one request through its form validation. -/
def apply_admin_op (s : SocietyUsers) : AdminOp → SocietyUsers
  | AdminOp.create un adm act => user_create s un adm act
  | AdminOp.update pk na aa => user_update s pk na aa

/-- Apply a sequence of requests. -/
def apply_admin_ops (s : SocietyUsers) (ops : List AdminOp) : SocietyUsers :=
  ops.foldl apply_admin_op s

/-! ## Authentication backend (stock_service/backends.py) -/

/-- User fields read by SocietyAuthBackend.authenticate.  The society
field holds the (unique) society name; the password field stands for the
stored password hash. -/
structure AuthUser where
  username : String
  email : String
  password : String
  is_active : Bool
  society : String
deriving DecidableEq, Repr

/-- check_password: password-hash verification, modelled as equality with
the stored secret. -/
def check_password (u : AuthUser) (p : String) : Bool :=
  u.password == p

/-- Users of the named society whose username or email matches the given
login case-insensitively (the Q-filtered get in backends.py). -/
def auth_matches (users : List AuthUser) (sn un : String) : List AuthUser :=
  users.filter (fun u =>
    (lowerStr u.username == lowerStr un || lowerStr u.email == lowerStr un) && u.society == sn)

/-- SocietyAuthBackend.authenticate (backends.py): fail when any credential
is missing; fail when the society name does not exist; get the unique
matching user of that society (no match or several matches fail); return
the user when the password verifies, else fail.  The is_active flag is
never consulted. -/
def authenticate (societies : List String) (users : List AuthUser)
    (username password society_name : Option String) : Option AuthUser :=
  match username, password, society_name with
  | some un, some pw, some sn =>
    if societies.contains sn then
      match auth_matches users sn un with
      | [u] => if check_password u pw then some u else none
      | _ => none
    else none
  | _, _, _ => none

/-! ## Concrete states for witnesses and counterexamples -/

/-- Concrete instance of C1. -/
def dbW : DB :=
  { society := { subscription_level := "free", can_manage_drawers := true },
    stock_object := { name := "bolt", current_quantity := 3, minimum_quantity := 1, is_active := true },
    placements := [{ drawer := 1, quantity := 2 }],
    movements := [],
    usages := [] }

/-- Concrete pending schedule for the C2 witness. -/
def refillStW : RefillState :=
  { stock_object := { name := "bolt", current_quantity := 3, minimum_quantity := 1, is_active := true },
    schedule := { scheduled_date := 10, quantity_to_refill := 5, is_completed := false,
                  completed_date := none },
    movements := [] }

/-- Inactive user with otherwise valid credentials, for the C6
counterexample. -/
def inactiveAuthUser : AuthUser :=
  { username := "alice", email := "alice@example.com", password := "pw1",
    is_active := false, society := "acme" }

/-- Active user for the C6 witness. -/
def activeAuthUser : AuthUser :=
  { username := "bob", email := "bob@example.com", password := "pw2",
    is_active := true, society := "acme" }

/-- Active item with zero stock and no 90-day usage, for the C8
counterexample. -/
def zeroNoUsageItem : StockObject :=
  { name := "widget", current_quantity := 0, minimum_quantity := 0, is_active := true }

/-- Item in the urgent tier for the C8 witness. -/
def urgentItem : StockObject :=
  { name := "cable", current_quantity := 1, minimum_quantity := 0, is_active := true }

/-- Item projected empty in 30 days for the C7 failing input. -/
def itemAlpha : StockObject :=
  { name := "alpha", current_quantity := 30, minimum_quantity := 0, is_active := true }

/-- Item projected empty in 60 days for the C7 failing input. -/
def itemBeta : StockObject :=
  { name := "beta", current_quantity := 60, minimum_quantity := 0, is_active := true }

/-- Usage ledger giving both items a 90-day total of 90, hence a daily
usage of exactly 1. -/
def usageAlphaBeta : List UsageRow :=
  [{ stock_object := "alpha", quantity_used := 90, logged_at := 0 },
   { stock_object := "beta", quantity_used := 90, logged_at := 0 }]

/-- Sole admin of the free-tier society, for the C4 witness. -/
def soleAdminUser : UserRec :=
  { pk := 1, username := "root", is_society_admin := true, is_active := true }

/-- Free-tier society with one admin and one plain user (1 admin, 2 users:
exactly at the free-tier bounds), for the C4 and C5 witnesses. -/
def freeSocietyW : SocietyUsers :=
  { subscription_level := "free",
    users := [soleAdminUser,
              { pk := 2, username := "worker", is_society_admin := false, is_active := true }] }

/-! ## Helper lemmas on the stock handlers -/

/-- Closed form of stock_out_stock_service when no drawer is involved and
stock suffices. -/
theorem stock_out_none_eq (db : DB) (q : Nat)
    (h : q ≤ db.stock_object.current_quantity) :
    stock_out_stock_service db q none =
      ({ db with
          stock_object :=
            { db.stock_object with current_quantity := db.stock_object.current_quantity - q },
          movements := db.movements ++
            [{ movement_type := "out", quantity := q, drawer_involved := none }] },
       none) := by
  unfold stock_out_stock_service
  rw [if_pos h]

/-- Closed form of stock_in_stock_service when no drawer is involved. -/
theorem stock_in_none_eq (db : DB) (q : Nat) :
    stock_in_stock_service db q none =
      { db with
          stock_object :=
            { db.stock_object with current_quantity := db.stock_object.current_quantity + q },
          movements := db.movements ++
            [{ movement_type := "in", quantity := q, drawer_involved := none }] } := rfl

/-! ## Claims C1, C2, C9, C10 -/

/-- Claim C1: a stock-out request whose quantity exceeds the current
quantity of the item fails with the insufficient-stock error and has no
side effects: the returned state (item quantity, every drawer placement,
the movement ledger, the usage ledger) is exactly the input state. -/
theorem stock_out_insufficient_stock_no_side_effects
    (db : DB) (quantity : Nat) (drawer_involved : Option Nat)
    (h : db.stock_object.current_quantity < quantity) :
    stock_out_stock_service db quantity drawer_involved
      = (db, some StockErr.insufficientStock) := by
  unfold stock_out_stock_service
  rw [if_neg (by omega)]

/-- Witness for C1 at a concrete state: requesting 5 out of 3 fails and
changes nothing. -/
theorem stock_out_insufficient_stock_no_side_effects_witness :
    dbW.stock_object.current_quantity < 5 ∧
    stock_out_stock_service dbW 5 none = (dbW, some StockErr.insufficientStock) :=
  ⟨by decide, stock_out_insufficient_stock_no_side_effects dbW 5 none (by decide)⟩

/-- Claim C2: completing a pending RefillSchedule sets is_completed and
completed_date = today, increments current_quantity by exactly
quantity_to_refill, and appends exactly one Movement(in); completing an
already-completed schedule leaves the whole state unchanged and only
warns. -/
theorem complete_refill_once_then_noop (st : RefillState) (today : Int) :
    (st.schedule.is_completed = false →
      (complete_refill_stock_service st today true).1.schedule.is_completed = true ∧
      (complete_refill_stock_service st today true).1.schedule.completed_date = some today ∧
      (complete_refill_stock_service st today true).1.stock_object.current_quantity
        = st.stock_object.current_quantity + st.schedule.quantity_to_refill ∧
      (complete_refill_stock_service st today true).1.movements
        = st.movements ++
            [{ movement_type := "in", quantity := st.schedule.quantity_to_refill,
               drawer_involved := none }] ∧
      (complete_refill_stock_service st today true).2 = RefillMsg.success)
    ∧ (st.schedule.is_completed = true →
      complete_refill_stock_service st today true = (st, RefillMsg.alreadyCompleted)) := by
  constructor
  · intro h
    simp [complete_refill_stock_service, h]
  · intro h
    simp [complete_refill_stock_service, h]

/-- Witness for C2: completing the concrete pending schedule raises the
quantity from 3 to 8 and a second completion is a warned no-op. -/
theorem complete_refill_once_then_noop_witness :
    refillStW.schedule.is_completed = false ∧
    (complete_refill_stock_service refillStW 12 true).1.stock_object.current_quantity = 8 :=
  ⟨rfl, ((complete_refill_once_then_noop refillStW 12).1 rfl).2.2.1⟩

/-- Claim C9: for q at most the current quantity, a stock-in of q followed
by a stock-out of q, and a stock-out of q followed by a stock-in of q,
both succeed and return current_quantity to its original value. -/
theorem stock_in_out_round_trip (db : DB) (q : Nat)
    (h : q ≤ db.stock_object.current_quantity) :
    (stock_out_stock_service (stock_in_stock_service db q none) q none).2 = none ∧
    (stock_out_stock_service (stock_in_stock_service db q none) q none).1.stock_object.current_quantity
      = db.stock_object.current_quantity ∧
    (stock_out_stock_service db q none).2 = none ∧
    (stock_in_stock_service (stock_out_stock_service db q none).1 q none).stock_object.current_quantity
      = db.stock_object.current_quantity := by
  rw [stock_in_none_eq, stock_out_none_eq db q h,
      stock_out_none_eq _ q (by simp)]
  refine ⟨rfl, by simp, rfl, by rw [stock_in_none_eq]; simp; omega⟩

/-- Witness for C9: on the concrete state with 3 bolts, in 2 then out 2 and
out 2 then in 2 both restore the quantity 3. -/
theorem stock_in_out_round_trip_witness :
    2 ≤ dbW.stock_object.current_quantity ∧
    (stock_out_stock_service (stock_in_stock_service dbW 2 none) 2 none).1.stock_object.current_quantity
      = dbW.stock_object.current_quantity ∧
    (stock_in_stock_service (stock_out_stock_service dbW 2 none).1 2 none).stock_object.current_quantity
      = dbW.stock_object.current_quantity :=
  ⟨by decide, (stock_in_out_round_trip dbW 2 (by decide)).2.1,
    (stock_in_out_round_trip dbW 2 (by decide)).2.2.2⟩

/-- Claim C10: a successful usage-logging decrements current_quantity by
exactly quantity_used, appends exactly one StockUsage row, and leaves the
movement ledger (and the placements) unchanged. -/
theorem add_stock_usage_no_movement (db : DB) (q : Nat) (t : Int)
    (h : (add_stock_usage_stock_service db q t).2 = true) :
    (add_stock_usage_stock_service db q t).1.stock_object.current_quantity + q
      = db.stock_object.current_quantity ∧
    (add_stock_usage_stock_service db q t).1.usages
      = db.usages ++ [{ quantity_used := q, logged_at := t }] ∧
    (add_stock_usage_stock_service db q t).1.movements = db.movements ∧
    (add_stock_usage_stock_service db q t).1.placements = db.placements := by
  by_cases hc : db.stock_object.current_quantity ≥ q
  · unfold add_stock_usage_stock_service
    rw [if_pos hc]
    exact ⟨by simp; omega, rfl, rfl, rfl⟩
  · unfold add_stock_usage_stock_service at h
    rw [if_neg hc] at h
    cases h

/-- Witness for C10: logging a usage of 2 out of 3 succeeds and writes no
movement row. -/
theorem add_stock_usage_no_movement_witness :
    (add_stock_usage_stock_service dbW 2 0).2 = true ∧
    (add_stock_usage_stock_service dbW 2 0).1.movements = dbW.movements :=
  ⟨by decide, (add_stock_usage_no_movement dbW 2 0 (by decide)).2.2.1⟩

/-! ## Claim C3 -/

/-- The row returned by get_or_create carries the recorded quantity of the
drawer (0 for a fresh row). -/
theorem get_or_create_placement_fst (ps : List StockObjectDrawerPlacement) (d : Nat) :
    (get_or_create_placement ps d).1.quantity = placement_quantity ps d := by
  unfold get_or_create_placement placement_quantity
  cases hf : ps.find? (fun p => p.drawer == d) <;> simp

/-- After get_or_create the placement table holds a row for the drawer. -/
theorem get_or_create_placement_isSome (ps : List StockObjectDrawerPlacement) (d : Nat) :
    (((get_or_create_placement ps d).2).find? (fun p => p.drawer == d)).isSome = true := by
  unfold get_or_create_placement
  cases hf : ps.find? (fun p => p.drawer == d) with
  | some p => simp [hf]
  | none => simp [List.find?_append, hf]

/-- Saving quantity v for drawer d overwrites the recorded quantity, as
long as a row for d exists. -/
theorem placement_quantity_save (ps : List StockObjectDrawerPlacement) (d v : Nat)
    (h : (ps.find? (fun p => p.drawer == d)).isSome = true) :
    placement_quantity (save_placement ps d v) d = v := by
  induction ps with
  | nil => simp at h
  | cons p ps ih =>
    cases hd : (p.drawer == d) with
    | true => simp [save_placement, placement_quantity, List.find?, hd]
    | false =>
      have h2 : (ps.find? (fun u => u.drawer == d)).isSome = true := by
        simpa [List.find?, hd] using h
      simpa [save_placement, placement_quantity, List.find?, hd] using ih h2

/-- Rollback half of C3: with drawer management on and enough stock, an
insufficient drawer placement makes stock_out return the original state
with the drawer error. -/
theorem stock_out_drawer_rollback (db : DB) (q d : Nat)
    (hm : db.society.can_manage_drawers = true)
    (hs : q ≤ db.stock_object.current_quantity)
    (hlt : placement_quantity db.placements d < q) :
    stock_out_stock_service db q (some d) = (db, some StockErr.insufficientDrawer) := by
  unfold stock_out_stock_service
  rw [if_pos hs]
  dsimp only
  rw [if_pos hm, if_neg (by rw [get_or_create_placement_fst]; omega)]

/-- Success half of C3: with drawer management on, enough stock and an
adequate placement, all three writes happen. -/
theorem stock_out_drawer_success (db : DB) (q d : Nat)
    (hm : db.society.can_manage_drawers = true)
    (hs : q ≤ db.stock_object.current_quantity)
    (hge : q ≤ placement_quantity db.placements d) :
    (stock_out_stock_service db q (some d)).2 = none ∧
    (stock_out_stock_service db q (some d)).1.stock_object.current_quantity + q
      = db.stock_object.current_quantity ∧
    placement_quantity (stock_out_stock_service db q (some d)).1.placements d + q
      = placement_quantity db.placements d ∧
    (stock_out_stock_service db q (some d)).1.movements
      = db.movements ++ [{ movement_type := "out", quantity := q, drawer_involved := some d }] := by
  unfold stock_out_stock_service
  rw [if_pos hs]
  dsimp only
  rw [if_pos hm, if_pos (by rw [get_or_create_placement_fst]; omega)]
  refine ⟨rfl, by dsimp only; omega, ?_, rfl⟩
  dsimp only
  rw [placement_quantity_save _ _ _ (get_or_create_placement_isSome _ _),
      get_or_create_placement_fst]
  omega

/-- Claim C3: for a stock-out with drawer management enabled and a drawer
involved, the three writes are all-or-nothing: when the drawer placement
holds fewer than the requested quantity the whole operation rolls back and
the state is exactly the original; otherwise the item quantity and the
placement quantity both drop by the requested amount and exactly one
Movement(out) is appended. -/
theorem stock_out_drawer_all_or_nothing (db : DB) (q d : Nat)
    (hm : db.society.can_manage_drawers = true)
    (hs : q ≤ db.stock_object.current_quantity) :
    (placement_quantity db.placements d < q →
      stock_out_stock_service db q (some d) = (db, some StockErr.insufficientDrawer)) ∧
    (q ≤ placement_quantity db.placements d →
      (stock_out_stock_service db q (some d)).2 = none ∧
      (stock_out_stock_service db q (some d)).1.stock_object.current_quantity + q
        = db.stock_object.current_quantity ∧
      placement_quantity (stock_out_stock_service db q (some d)).1.placements d + q
        = placement_quantity db.placements d ∧
      (stock_out_stock_service db q (some d)).1.movements
        = db.movements ++
            [{ movement_type := "out", quantity := q, drawer_involved := some d }]) :=
  ⟨fun hlt => stock_out_drawer_rollback db q d hm hs hlt,
   fun hge => stock_out_drawer_success db q d hm hs hge⟩

/-- Witness for C3 at the concrete state dbW (2 bolts in drawer 1, 3 in
stock): taking 3 out of drawer 1 rolls back, taking 2 succeeds. -/
theorem stock_out_drawer_all_or_nothing_witness :
    dbW.society.can_manage_drawers = true ∧
    3 ≤ dbW.stock_object.current_quantity ∧
    placement_quantity dbW.placements 1 < 3 ∧
    stock_out_stock_service dbW 3 (some 1) = (dbW, some StockErr.insufficientDrawer) :=
  ⟨by decide, by decide, by decide,
   (stock_out_drawer_all_or_nothing dbW 3 1 (by decide) (by decide)).1 (by decide)⟩

/-! ## Claim C6 -/

/-- Claim C6 counterexample: the backend returns an inactive user whose
credentials are correct, instead of the uniform failure value the claim
requires for inactive users. -/
theorem authenticate_inactive_user_counterexample :
    inactiveAuthUser.is_active = false ∧
    authenticate ["acme"] [inactiveAuthUser] (some "alice") (some "pw1") (some "acme")
      = some inactiveAuthUser := by
  constructor
  · rfl
  · decide

/-- Claim C6 (amended): authentication returns a user exactly when the
named society exists, exactly one user of that society matches the given
login case-insensitively on username or email, and the password verifies.
The is_active flag plays no role: the characterisation holds whatever its
value, so an inactive user with correct credentials is returned. -/
theorem authenticate_characterization (societies : List String) (users : List AuthUser)
    (un pw sn : String) (u : AuthUser) :
    authenticate societies users (some un) (some pw) (some sn) = some u ↔
      societies.contains sn = true ∧ auth_matches users sn un = [u] ∧
        check_password u pw = true := by
  unfold authenticate
  dsimp only
  by_cases hc : societies.contains sn = true
  · rw [if_pos hc]
    cases hm : auth_matches users sn un with
    | nil => simp [hc]
    | cons x xs =>
      cases xs with
      | nil =>
        dsimp only
        by_cases hp : check_password x pw = true
        · rw [if_pos hp]
          simp only [hc, true_and, Option.some.injEq, List.cons.injEq, and_true]
          constructor
          · rintro rfl
            exact ⟨rfl, hp⟩
          · rintro ⟨rfl, h2⟩
            rfl
        · rw [if_neg hp]
          simp only [hc, true_and, List.cons.injEq, and_true]
          constructor
          · intro h2
            exact Option.noConfusion h2
          · rintro ⟨rfl, h3⟩
            exact absurd h3 hp
      | cons y ys => simp [hc]
  · rw [if_neg hc]
    constructor
    · intro h2
      exact Option.noConfusion h2
    · rintro ⟨h1, h2, h3⟩
      exact absurd h1 hc

/-- Witness for the amended C6 at a concrete state: bob of acme with the
right password is authenticated. -/
theorem authenticate_characterization_witness :
    authenticate ["acme"] [activeAuthUser] (some "bob") (some "pw2") (some "acme")
      = some activeAuthUser :=
  (authenticate_characterization ["acme"] [activeAuthUser] "bob" "pw2" "acme"
    activeAuthUser).mpr ⟨by decide, by decide, by decide⟩

/-! ## Claim C8 -/

/-- Claim C8 counterexample: an active item with current_quantity = 0 whose
trailing-90-day usage sum is 0 is NOT flagged needs-immediate-refill (the
claim says the flag is independent of the usage sum); it receives the
low-stock-no-usage flag instead. -/
theorem prediction_zero_stock_counterexample :
    (mkPrediction 0 zeroNoUsageItem 0).alert_message ≠ some Alert.zeroStock ∧
    (mkPrediction 0 zeroNoUsageItem 0).alert_message = some Alert.lowStockNoUsage := by
  constructor
  · decide
  · decide

/-- Claim C8 (amended): with positive trailing-90-day usage, zero stock is
flagged needs-immediate-refill; with zero usage, a zero-stock item gets the
low-stock-no-usage flag instead (its quantity is never above the minimum).
For positive stock and positive usage the tiers follow days_until_empty =
90 * current_quantity / total: at most 7 gives urgent, at most 14 gives
consider-restocking, beyond 14 no alert.  The needs_refill (low-stock) flag
is current_quantity at most minimum_quantity, independent of the usage-rate
alert. -/
theorem prediction_alert_tiers (today : Int) (so : StockObject) (total : Nat) :
    (0 < total → so.current_quantity = 0 →
      (mkPrediction today so total).alert_message = some Alert.zeroStock) ∧
    (total = 0 → so.current_quantity = 0 →
      (mkPrediction today so total).alert_message = some Alert.lowStockNoUsage) ∧
    (0 < total → 0 < so.current_quantity → 90 * so.current_quantity ≤ 7 * total →
      (mkPrediction today so total).alert_message = some Alert.urgent) ∧
    (0 < total → 0 < so.current_quantity → 7 * total < 90 * so.current_quantity →
      90 * so.current_quantity ≤ 14 * total →
      (mkPrediction today so total).alert_message = some Alert.considerRestocking) ∧
    (0 < total → 0 < so.current_quantity → 14 * total < 90 * so.current_quantity →
      (mkPrediction today so total).alert_message = none) ∧
    ((mkPrediction today so total).needs_refill = true ↔
      so.current_quantity ≤ so.minimum_quantity) := by
  refine ⟨?_, ?_, ?_, ?_, ?_, ?_⟩
  · intro ht h0
    unfold mkPrediction
    rw [if_pos ht, if_pos h0]
  · intro ht h0
    unfold mkPrediction
    rw [if_neg (by omega), if_pos (by omega)]
  · intro ht hc h7
    unfold mkPrediction
    rw [if_pos ht, if_neg (by omega), if_pos h7]
  · intro ht hc h7 h14
    unfold mkPrediction
    rw [if_pos ht, if_neg (by omega), if_neg (by omega), if_pos h14]
  · intro ht hc h14
    unfold mkPrediction
    rw [if_pos ht, if_neg (by omega), if_neg (by omega), if_neg (by omega)]
  · unfold mkPrediction
    split_ifs with h1 h2 h3 h4 h5 <;> simp [decide_eq_true_eq] <;> omega

/-- Witness for the amended C8: one unit left with 90 units used in 90 days
is projected empty in 1 day and flagged urgent. -/
theorem prediction_alert_tiers_witness :
    (0 : Nat) < 90 ∧ 0 < urgentItem.current_quantity ∧
    90 * urgentItem.current_quantity ≤ 7 * 90 ∧
    (mkPrediction 0 urgentItem 90).alert_message = some Alert.urgent :=
  ⟨by decide, by decide, by decide,
   (prediction_alert_tiers 0 urgentItem 90).2.2.1 (by decide) (by decide) (by decide)⟩

/-! ## Claim C7 -/

/-- Claim C7 (code-bug evidence): two active items with no alert and no
low-stock flag, alpha projected empty on day 30 and beta on day 60, are
listed with beta FIRST.  Because the whole five-component key comparison
runs under reverse=True, the later projected date comes first and full-key
name ties would be broken in descending order, although the claim (and the
sort-key comment in the source) wants the earliest date first. -/
theorem refill_prediction_lists_later_date_first :
    (refill_prediction_stock_service 0 [itemAlpha, itemBeta] usageAlphaBeta).map
        (fun e => (e.name, e.alert_message, e.needs_refill, e.predicted_refill_date))
      = [("beta", none, false, some 60), ("alpha", none, false, some 30)] := by decide

/-! ## Claims C4 and C5 -/

/-- The seed of a fold by max bounds the fold from below. -/
theorem foldl_max_le_init (l : List Nat) (a : Nat) : a ≤ l.foldl max a := by
  induction l generalizing a with
  | nil => exact Nat.le_refl a
  | cons x l ih => exact Nat.le_trans (Nat.le_max_left a x) (ih (max a x))

/-- Every member of a list bounds its fold by max from below. -/
theorem mem_le_foldl_max (l : List Nat) (a x : Nat) : x ∈ l → x ≤ l.foldl max a := by
  induction l generalizing a with
  | nil =>
    intro hx
    cases hx
  | cons y l ih =>
    intro hx
    cases hx with
    | head => exact Nat.le_trans (Nat.le_max_right a _) (foldl_max_le_init l _)
    | tail _ h => exact ih (max a y) h

/-- The autoincremented key of a created row is fresh. -/
theorem fresh_pk_not_mem (users : List UserRec) :
    fresh_pk users ∉ users.map (fun u => u.pk) := by
  intro hmem
  have h1 := mem_le_foldl_max (users.map (fun u => u.pk)) 0 (fresh_pk users) hmem
  unfold fresh_pk at h1
  omega

/-- Excluding a key that occurs nowhere does not change a count. -/
theorem countP_excluding_congr (l : List UserRec) (pk : Nat) (p : UserRec → Bool)
    (h : ∀ v ∈ l, (v.pk == pk) = false) :
    l.countP (fun u => p u && u.pk != pk) = l.countP p := by
  apply List.countP_congr
  intro v hv
  simp [bne, h v hv]

/-- With pairwise distinct keys, once the head matches pk no tail row
does. -/
theorem no_match_in_tail (u : UserRec) (l : List UserRec) (pk : Nat)
    (hne : u.pk ∉ l.map (fun v => v.pk)) (hpk : (u.pk == pk) = true) :
    ∀ v ∈ l, (v.pk == pk) = false := by
  intro v hv
  cases hvv : (v.pk == pk) with
  | false => rfl
  | true =>
    exfalso
    apply hne
    have e1 : u.pk = pk := by simpa using hpk
    have e2 : v.pk = pk := by simpa using hvv
    rw [e1, ← e2]
    exact List.mem_map_of_mem _ hv

/-- Admin count decomposed at the row found by primary key. -/
theorem admin_count_split_found (l : List UserRec) (pk : Nat) (inst : UserRec)
    (hnd : (l.map (fun u => u.pk)).Nodup)
    (hf : l.find? (fun u => u.pk == pk) = some inst) :
    admin_count l = admin_count_excluding l pk +
      (if inst.is_society_admin then 1 else 0) := by
  induction l with
  | nil => cases hf
  | cons u l ih =>
    rw [List.map_cons, List.nodup_cons] at hnd
    cases hpk : (u.pk == pk) with
    | true =>
      have hinst : u = inst := by simpa [List.find?, hpk] using hf
      have hnm := no_match_in_tail u l pk hnd.1 hpk
      unfold admin_count admin_count_excluding
      rw [List.countP_cons, List.countP_cons, countP_excluding_congr l pk _ hnm]
      subst hinst
      cases hadm : u.is_society_admin <;> simp [bne, hpk, hadm]
    | false =>
      have hf2 : l.find? (fun v => v.pk == pk) = some inst := by
        simpa [List.find?, hpk] using hf
      have hrec := ih hnd.2 hf2
      have hb : (u.pk != pk) = true := by simp [bne, hpk]
      unfold admin_count admin_count_excluding at hrec ⊢
      rw [List.countP_cons, List.countP_cons]
      cases hadm : u.is_society_admin <;> simp [hpk, hadm, hb, hrec] <;> omega

/-- Admin count of the saved user table: the update overwrites the admin
flag of the row keyed by pk with the submitted value. -/
theorem admin_count_map_upd (l : List UserRec) (pk : Nat) (na aa : Bool) (inst : UserRec)
    (hnd : (l.map (fun u => u.pk)).Nodup)
    (hf : l.find? (fun u => u.pk == pk) = some inst) :
    admin_count (l.map (upd_user pk na aa))
      = admin_count_excluding l pk + (if na then 1 else 0) := by
  induction l with
  | nil => cases hf
  | cons u l ih =>
    rw [List.map_cons, List.nodup_cons] at hnd
    cases hpk : (u.pk == pk) with
    | true =>
      have hnm := no_match_in_tail u l pk hnd.1 hpk
      have htail : (l.map (upd_user pk na aa)).countP (fun u => u.is_society_admin)
          = l.countP (fun u => u.is_society_admin) := by
        rw [List.countP_map]
        apply List.countP_congr
        intro v hv
        have hid : upd_user pk na aa v = v := by
          unfold upd_user
          rw [if_neg (by simp [hnm v hv])]
        simp [Function.comp, hid]
      have hu : (upd_user pk na aa u).is_society_admin = na := by
        unfold upd_user
        rw [if_pos hpk]
      unfold admin_count admin_count_excluding
      rw [List.map_cons, List.countP_cons, List.countP_cons, htail,
          countP_excluding_congr l pk _ hnm, hu]
      cases hna : na <;> cases hadm : u.is_society_admin <;> simp [bne, hpk, hna, hadm]
    | false =>
      have hf2 : l.find? (fun v => v.pk == pk) = some inst := by
        simpa [List.find?, hpk] using hf
      have hid : upd_user pk na aa u = u := by
        unfold upd_user
        rw [if_neg (by simp [hpk])]
      have hrec := ih hnd.2 hf2
      have hb : (u.pk != pk) = true := by simp [bne, hpk]
      unfold admin_count admin_count_excluding at hrec ⊢
      rw [List.map_cons, List.countP_cons, List.countP_cons, hid]
      cases hadm : u.is_society_admin <;> cases hna : na <;>
        simp [hpk, hadm, hb, hna] <;> simp [hna] at hrec <;> omega

/-- The primary keys of the saved user table are those of the original
table. -/
theorem map_pk_map_upd (l : List UserRec) (pk : Nat) (na aa : Bool) :
    (l.map (upd_user pk na aa)).map (fun u => u.pk) = l.map (fun u => u.pk) := by
  rw [List.map_map]
  apply List.map_congr_left
  intro v hv
  simp only [Function.comp_apply, upd_user]
  split <;> rfl

/-- Claim C4: on a free-tier society, the update form rejects revoking the
admin flag of the sole admin; consequently the update path never takes a
society with at least one admin to zero admins. -/
theorem user_update_keeps_an_admin (s : SocietyUsers)
    (hfree : s.subscription_level = "free")
    (hnd : (s.users.map (fun u => u.pk)).Nodup) :
    (∀ inst new_active, s.users.find? (fun u => u.pk == inst.pk) = some inst →
      inst.is_society_admin = true → admin_count_excluding s.users inst.pk = 0 →
      UserUpdateForm_clean s inst false new_active = false) ∧
    (∀ pk na aa, 1 ≤ admin_count s.users →
      1 ≤ admin_count (user_update s pk na aa).users) := by
  constructor
  · intro inst new_active hf hadm hexcl
    unfold UserUpdateForm_clean
    simp [hadm, hexcl, hfree]
  · intro pk na aa hone
    unfold user_update
    cases hf : s.users.find? (fun u => u.pk == pk) with
    | none => exact hone
    | some inst =>
      dsimp only
      by_cases hcl : UserUpdateForm_clean s inst na aa = true
      · rw [if_pos hcl]
        dsimp only
        rw [admin_count_map_upd s.users pk na aa inst hnd hf]
        have hsplit := admin_count_split_found s.users pk inst hnd hf
        cases hna : na with
        | true => simp
        | false =>
          cases hadm : inst.is_society_admin with
          | false =>
            rw [hadm] at hsplit
            simp at hsplit ⊢
            omega
          | true =>
            have hpkeq : inst.pk = pk := by simpa using List.find?_some hf
            rw [hadm] at hsplit
            simp only [UserUpdateForm_clean, hadm, hna, hfree, hpkeq] at hcl
            simp at hcl ⊢
            omega
      · rw [if_neg hcl]
        exact hone

/-- Witness for C4: demoting the sole admin of the concrete free-tier
society fails validation. -/
theorem user_update_keeps_an_admin_witness :
    UserUpdateForm_clean freeSocietyW soleAdminUser false true = false :=
  (user_update_keeps_an_admin freeSocietyW rfl (by decide)).1 soleAdminUser true
    (by decide) rfl (by decide)

/-- Single-step preservation: on a free-tier society within the bounds
(at most 1 admin, at most 2 users, distinct keys), any validated create or
update keeps the tier, the key distinctness and both bounds. -/
theorem apply_admin_op_preserves (s : SocietyUsers) (op : AdminOp)
    (hfree : s.subscription_level = "free")
    (hnd : (s.users.map (fun u => u.pk)).Nodup)
    (ha : admin_count s.users ≤ 1)
    (ht : user_count s.users ≤ 2) :
    (apply_admin_op s op).subscription_level = "free" ∧
    ((apply_admin_op s op).users.map (fun u => u.pk)).Nodup ∧
    admin_count (apply_admin_op s op).users ≤ 1 ∧
    user_count (apply_admin_op s op).users ≤ 2 := by
  have hma : max_admins "free" = some 1 := rfl
  have hmu : max_users "free" = some 2 := rfl
  cases op with
  | create un adm act =>
    unfold apply_admin_op user_create
    dsimp only
    by_cases hcl : UserCreateForm_clean s un adm = true
    · rw [if_pos hcl]
      unfold UserCreateForm_clean at hcl
      rw [hfree, hma, hmu] at hcl
      simp only [geLimit] at hcl
      simp at hcl
      refine ⟨hfree, ?_, ?_, ?_⟩
      · rw [List.map_append, List.nodup_append]
        refine ⟨hnd, List.nodup_singleton _, ?_⟩
        intro a h1 h2
        simp at h2
        subst h2
        exact fresh_pk_not_mem _ h1
      · unfold admin_count
        rw [List.countP_append]
        unfold admin_count at ha
        cases hadm2 : adm with
        | false => simpa [hadm2] using ha
        | true =>
          have h0 : admin_count s.users = 0 := by
            rcases hcl.1.2 with h | h
            · rw [hadm2] at h
              cases h
            · exact h
          unfold admin_count at h0
          rw [h0]
          simp [hadm2]
      · unfold user_count
        rw [List.length_append]
        have h2 := hcl.2
        unfold user_count at h2
        simp
        omega
    · rw [if_neg hcl]
      exact ⟨hfree, hnd, ha, ht⟩
  | update pk na aa =>
    unfold apply_admin_op user_update
    dsimp only
    cases hf : s.users.find? (fun u => u.pk == pk) with
    | none => exact ⟨hfree, hnd, ha, ht⟩
    | some inst =>
      dsimp only
      by_cases hcl : UserUpdateForm_clean s inst na aa = true
      · rw [if_pos hcl]
        refine ⟨hfree, ?_, ?_, ?_⟩
        · rw [map_pk_map_upd]
          exact hnd
        · rw [admin_count_map_upd s.users pk na aa inst hnd hf]
          have hsplit := admin_count_split_found s.users pk inst hnd hf
          cases hna : na with
          | false =>
            simp
            cases hadm : inst.is_society_admin <;> rw [hadm] at hsplit <;>
              simp at hsplit <;> omega
          | true =>
            cases hadm : inst.is_society_admin with
            | true =>
              rw [hadm] at hsplit
              simp at hsplit ⊢
              omega
            | false =>
              have hpkeq : inst.pk = pk := by simpa using List.find?_some hf
              unfold UserUpdateForm_clean at hcl
              rw [hfree, hma, hadm, hna] at hcl
              simp only [gtLimit] at hcl
              simp at hcl
              rw [hpkeq] at hcl
              obtain ⟨h0, h1⟩ := hcl
              simp
              omega
        · unfold user_count
          rw [List.length_map]
          exact ht
      · rw [if_neg hcl]
        exact ⟨hfree, hnd, ha, ht⟩

/-- Claim C5: starting from a free-tier society with at most 1 admin and
at most 2 users (and pairwise distinct keys), no sequence of validated
user-create and user-update requests can exceed 1 admin or 2 total
users. -/
theorem free_tier_limits_invariant (s : SocietyUsers) (ops : List AdminOp)
    (hfree : s.subscription_level = "free")
    (hnd : (s.users.map (fun u => u.pk)).Nodup)
    (ha : admin_count s.users ≤ 1)
    (ht : user_count s.users ≤ 2) :
    admin_count (apply_admin_ops s ops).users ≤ 1 ∧
    user_count (apply_admin_ops s ops).users ≤ 2 := by
  induction ops generalizing s with
  | nil => exact ⟨ha, ht⟩
  | cons op ops ih =>
    have hstep := apply_admin_op_preserves s op hfree hnd ha ht
    exact ih (apply_admin_op s op) hstep.1 hstep.2.1 hstep.2.2.1 hstep.2.2.2

/-- Witness for C5: the concrete free-tier society at its bounds stays
within them after a create request (which validation rejects) followed by
an update request promoting the plain user (also rejected). -/
theorem free_tier_limits_invariant_witness :
    admin_count (apply_admin_ops freeSocietyW
        [AdminOp.create "extra" true true, AdminOp.update 2 true true]).users ≤ 1 ∧
    user_count (apply_admin_ops freeSocietyW
        [AdminOp.create "extra" true true, AdminOp.update 2 true true]).users ≤ 2 :=
  free_tier_limits_invariant freeSocietyW
    [AdminOp.create "extra" true true, AdminOp.update 2 true true]
    rfl (by decide) (by decide) (by decide)
